import Mathlib

set_option maxRecDepth 16384

/-!
Verification of the money-flow dashboard validator/formatter pipeline
(`.github/scripts/money_flow.py`) and the agent gist script
(`.github/scripts/agent_gist.py`).

Strings are modelled as lists of Unicode code points (`List Nat`), which is
exactly how Python 3 exposes a `str` (a sequence of code points).  Pure
functions of the scripts are translated directly; network and process
effects are abstracted into explicit oracle parameters.
-/

namespace MoneyFlow

/-- Code points that Python's `str.strip()` / `str.isspace()` treat as
whitespace (the Unicode whitespace set used by CPython). -/
def isPySpace (cp : Nat) : Bool :=
  (9 ≤ cp && cp ≤ 13) || (28 ≤ cp && cp ≤ 31) || cp == 32 || cp == 0x85 ||
  cp == 0xA0 || cp == 0x1680 || (0x2000 ≤ cp && cp ≤ 0x200A) ||
  cp == 0x2028 || cp == 0x2029 || cp == 0x202F || cp == 0x205F || cp == 0x3000

/-- A line is blank when `line.strip() == ""`, i.e. every code point is
whitespace (this includes the empty line). -/
def isBlank (l : List Nat) : Bool :=
  l.all isPySpace

/-- Python's `s.split("\n")`: splitting on the newline code point 10.  The
empty string splits to `[""]`, and a trailing newline yields a trailing
empty line, exactly as in Python. -/
def splitNL : List Nat → List (List Nat)
  | [] => [[]]
  | cp :: rest =>
    if cp = 10 then [] :: splitNL rest
    else
      match splitNL rest with
      | [] => [[cp]]
      | l :: ls => (cp :: l) :: ls

/-- Maximal intervals of code points whose `unicodedata.east_asian_width`
is `W` or `F` (wide/fullwidth), from the Unicode 14.0.0 character tables
shipped with CPython's `unicodedata` module. -/
def eawWideRanges : List (Nat × Nat) := [
  (0x378, 0x379), (0x380, 0x383), (0x38B, 0x38B), (0x38D, 0x38D),
  (0x3A2, 0x3A2), (0x530, 0x530), (0x557, 0x558), (0x58B, 0x58C),
  (0x590, 0x590), (0x5C8, 0x5CF), (0x5EB, 0x5EE), (0x5F5, 0x5FF),
  (0x70E, 0x70E), (0x74B, 0x74C), (0x7B2, 0x7BF), (0x7FB, 0x7FC),
  (0x82E, 0x82F), (0x83F, 0x83F), (0x85C, 0x85D), (0x85F, 0x85F),
  (0x86B, 0x86F), (0x88F, 0x88F), (0x892, 0x897), (0x984, 0x984),
  (0x98D, 0x98E), (0x991, 0x992), (0x9A9, 0x9A9), (0x9B1, 0x9B1),
  (0x9B3, 0x9B5), (0x9BA, 0x9BB), (0x9C5, 0x9C6), (0x9C9, 0x9CA),
  (0x9CF, 0x9D6), (0x9D8, 0x9DB), (0x9DE, 0x9DE), (0x9E4, 0x9E5),
  (0x9FF, 0xA00), (0xA04, 0xA04), (0xA0B, 0xA0E), (0xA11, 0xA12),
  (0xA29, 0xA29), (0xA31, 0xA31), (0xA34, 0xA34), (0xA37, 0xA37),
  (0xA3A, 0xA3B), (0xA3D, 0xA3D), (0xA43, 0xA46), (0xA49, 0xA4A),
  (0xA4E, 0xA50), (0xA52, 0xA58), (0xA5D, 0xA5D), (0xA5F, 0xA65),
  (0xA77, 0xA80), (0xA84, 0xA84), (0xA8E, 0xA8E), (0xA92, 0xA92),
  (0xAA9, 0xAA9), (0xAB1, 0xAB1), (0xAB4, 0xAB4), (0xABA, 0xABB),
  (0xAC6, 0xAC6), (0xACA, 0xACA), (0xACE, 0xACF), (0xAD1, 0xADF),
  (0xAE4, 0xAE5), (0xAF2, 0xAF8), (0xB00, 0xB00), (0xB04, 0xB04),
  (0xB0D, 0xB0E), (0xB11, 0xB12), (0xB29, 0xB29), (0xB31, 0xB31),
  (0xB34, 0xB34), (0xB3A, 0xB3B), (0xB45, 0xB46), (0xB49, 0xB4A),
  (0xB4E, 0xB54), (0xB58, 0xB5B), (0xB5E, 0xB5E), (0xB64, 0xB65),
  (0xB78, 0xB81), (0xB84, 0xB84), (0xB8B, 0xB8D), (0xB91, 0xB91),
  (0xB96, 0xB98), (0xB9B, 0xB9B), (0xB9D, 0xB9D), (0xBA0, 0xBA2),
  (0xBA5, 0xBA7), (0xBAB, 0xBAD), (0xBBA, 0xBBD), (0xBC3, 0xBC5),
  (0xBC9, 0xBC9), (0xBCE, 0xBCF), (0xBD1, 0xBD6), (0xBD8, 0xBE5),
  (0xBFB, 0xBFF), (0xC0D, 0xC0D), (0xC11, 0xC11), (0xC29, 0xC29),
  (0xC3A, 0xC3B), (0xC45, 0xC45), (0xC49, 0xC49), (0xC4E, 0xC54),
  (0xC57, 0xC57), (0xC5B, 0xC5C), (0xC5E, 0xC5F), (0xC64, 0xC65),
  (0xC70, 0xC76), (0xC8D, 0xC8D), (0xC91, 0xC91), (0xCA9, 0xCA9),
  (0xCB4, 0xCB4), (0xCBA, 0xCBB), (0xCC5, 0xCC5), (0xCC9, 0xCC9),
  (0xCCE, 0xCD4), (0xCD7, 0xCDC), (0xCDF, 0xCDF), (0xCE4, 0xCE5),
  (0xCF0, 0xCF0), (0xCF3, 0xCFF), (0xD0D, 0xD0D), (0xD11, 0xD11),
  (0xD45, 0xD45), (0xD49, 0xD49), (0xD50, 0xD53), (0xD64, 0xD65),
  (0xD80, 0xD80), (0xD84, 0xD84), (0xD97, 0xD99), (0xDB2, 0xDB2),
  (0xDBC, 0xDBC), (0xDBE, 0xDBF), (0xDC7, 0xDC9), (0xDCB, 0xDCE),
  (0xDD5, 0xDD5), (0xDD7, 0xDD7), (0xDE0, 0xDE5), (0xDF0, 0xDF1),
  (0xDF5, 0xE00), (0xE3B, 0xE3E), (0xE5C, 0xE80), (0xE83, 0xE83),
  (0xE85, 0xE85), (0xE8B, 0xE8B), (0xEA4, 0xEA4), (0xEA6, 0xEA6),
  (0xEBE, 0xEBF), (0xEC5, 0xEC5), (0xEC7, 0xEC7), (0xECE, 0xECF),
  (0xEDA, 0xEDB), (0xEE0, 0xEFF), (0xF48, 0xF48), (0xF6D, 0xF70),
  (0xF98, 0xF98), (0xFBD, 0xFBD), (0xFCD, 0xFCD), (0xFDB, 0xFFF),
  (0x10C6, 0x10C6), (0x10C8, 0x10CC), (0x10CE, 0x10CF), (0x1100, 0x115F),
  (0x1249, 0x1249), (0x124E, 0x124F), (0x1257, 0x1257), (0x1259, 0x1259),
  (0x125E, 0x125F), (0x1289, 0x1289), (0x128E, 0x128F), (0x12B1, 0x12B1),
  (0x12B6, 0x12B7), (0x12BF, 0x12BF), (0x12C1, 0x12C1), (0x12C6, 0x12C7),
  (0x12D7, 0x12D7), (0x1311, 0x1311), (0x1316, 0x1317), (0x135B, 0x135C),
  (0x137D, 0x137F), (0x139A, 0x139F), (0x13F6, 0x13F7), (0x13FE, 0x13FF),
  (0x169D, 0x169F), (0x16F9, 0x16FF), (0x1716, 0x171E), (0x1737, 0x173F),
  (0x1754, 0x175F), (0x176D, 0x176D), (0x1771, 0x1771), (0x1774, 0x177F),
  (0x17DE, 0x17DF), (0x17EA, 0x17EF), (0x17FA, 0x17FF), (0x181A, 0x181F),
  (0x1879, 0x187F), (0x18AB, 0x18AF), (0x18F6, 0x18FF), (0x191F, 0x191F),
  (0x192C, 0x192F), (0x193C, 0x193F), (0x1941, 0x1943), (0x196E, 0x196F),
  (0x1975, 0x197F), (0x19AC, 0x19AF), (0x19CA, 0x19CF), (0x19DB, 0x19DD),
  (0x1A1C, 0x1A1D), (0x1A5F, 0x1A5F), (0x1A7D, 0x1A7E), (0x1A8A, 0x1A8F),
  (0x1A9A, 0x1A9F), (0x1AAE, 0x1AAF), (0x1ACF, 0x1AFF), (0x1B4D, 0x1B4F),
  (0x1B7F, 0x1B7F), (0x1BF4, 0x1BFB), (0x1C38, 0x1C3A), (0x1C4A, 0x1C4C),
  (0x1C89, 0x1C8F), (0x1CBB, 0x1CBC), (0x1CC8, 0x1CCF), (0x1CFB, 0x1CFF),
  (0x1F16, 0x1F17), (0x1F1E, 0x1F1F), (0x1F46, 0x1F47), (0x1F4E, 0x1F4F),
  (0x1F58, 0x1F58), (0x1F5A, 0x1F5A), (0x1F5C, 0x1F5C), (0x1F5E, 0x1F5E),
  (0x1F7E, 0x1F7F), (0x1FB5, 0x1FB5), (0x1FC5, 0x1FC5), (0x1FD4, 0x1FD5),
  (0x1FDC, 0x1FDC), (0x1FF0, 0x1FF1), (0x1FF5, 0x1FF5), (0x1FFF, 0x1FFF),
  (0x2065, 0x2065), (0x2072, 0x2073), (0x208F, 0x208F), (0x209D, 0x209F),
  (0x20C1, 0x20CF), (0x20F1, 0x20FF), (0x218C, 0x218F), (0x231A, 0x231B),
  (0x2329, 0x232A), (0x23E9, 0x23EC), (0x23F0, 0x23F0), (0x23F3, 0x23F3),
  (0x2427, 0x243F), (0x244B, 0x245F), (0x25FD, 0x25FE), (0x2614, 0x2615),
  (0x2648, 0x2653), (0x267F, 0x267F), (0x2693, 0x2693), (0x26A1, 0x26A1),
  (0x26AA, 0x26AB), (0x26BD, 0x26BE), (0x26C4, 0x26C5), (0x26CE, 0x26CE),
  (0x26D4, 0x26D4), (0x26EA, 0x26EA), (0x26F2, 0x26F3), (0x26F5, 0x26F5),
  (0x26FA, 0x26FA), (0x26FD, 0x26FD), (0x2705, 0x2705), (0x270A, 0x270B),
  (0x2728, 0x2728), (0x274C, 0x274C), (0x274E, 0x274E), (0x2753, 0x2755),
  (0x2757, 0x2757), (0x2795, 0x2797), (0x27B0, 0x27B0), (0x27BF, 0x27BF),
  (0x2B1B, 0x2B1C), (0x2B50, 0x2B50), (0x2B55, 0x2B55), (0x2B74, 0x2B75),
  (0x2B96, 0x2B96), (0x2CF4, 0x2CF8), (0x2D26, 0x2D26), (0x2D28, 0x2D2C),
  (0x2D2E, 0x2D2F), (0x2D68, 0x2D6E), (0x2D71, 0x2D7E), (0x2D97, 0x2D9F),
  (0x2DA7, 0x2DA7), (0x2DAF, 0x2DAF), (0x2DB7, 0x2DB7), (0x2DBF, 0x2DBF),
  (0x2DC7, 0x2DC7), (0x2DCF, 0x2DCF), (0x2DD7, 0x2DD7), (0x2DDF, 0x2DDF),
  (0x2E5E, 0x303E), (0x3040, 0x3247), (0x3250, 0x4DBF), (0x4E00, 0xA4CF),
  (0xA62C, 0xA63F), (0xA6F8, 0xA6FF), (0xA7CB, 0xA7CF), (0xA7D2, 0xA7D2),
  (0xA7D4, 0xA7D4), (0xA7DA, 0xA7F1), (0xA82D, 0xA82F), (0xA83A, 0xA83F),
  (0xA878, 0xA87F), (0xA8C6, 0xA8CD), (0xA8DA, 0xA8DF), (0xA954, 0xA95E),
  (0xA960, 0xA97F), (0xA9CE, 0xA9CE), (0xA9DA, 0xA9DD), (0xA9FF, 0xA9FF),
  (0xAA37, 0xAA3F), (0xAA4E, 0xAA4F), (0xAA5A, 0xAA5B), (0xAAC3, 0xAADA),
  (0xAAF7, 0xAB00), (0xAB07, 0xAB08), (0xAB0F, 0xAB10), (0xAB17, 0xAB1F),
  (0xAB27, 0xAB27), (0xAB2F, 0xAB2F), (0xAB6C, 0xAB6F), (0xABEE, 0xABEF),
  (0xABFA, 0xD7AF), (0xD7C7, 0xD7CA), (0xD7FC, 0xD7FF), (0xF900, 0xFAFF),
  (0xFB07, 0xFB12), (0xFB18, 0xFB1C), (0xFB37, 0xFB37), (0xFB3D, 0xFB3D),
  (0xFB3F, 0xFB3F), (0xFB42, 0xFB42), (0xFB45, 0xFB45), (0xFBC3, 0xFBD2),
  (0xFD90, 0xFD91), (0xFDC8, 0xFDCE), (0xFDD0, 0xFDEF), (0xFE10, 0xFE1F),
  (0xFE30, 0xFE6F), (0xFE75, 0xFE75), (0xFEFD, 0xFEFE), (0xFF00, 0xFF60),
  (0xFFBF, 0xFFC1), (0xFFC8, 0xFFC9), (0xFFD0, 0xFFD1), (0xFFD8, 0xFFD9),
  (0xFFDD, 0xFFE7), (0xFFEF, 0xFFF8), (0xFFFE, 0xFFFF), (0x1000C, 0x1000C),
  (0x10027, 0x10027), (0x1003B, 0x1003B), (0x1003E, 0x1003E), (0x1004E, 0x1004F),
  (0x1005E, 0x1007F), (0x100FB, 0x100FF), (0x10103, 0x10106), (0x10134, 0x10136),
  (0x1018F, 0x1018F), (0x1019D, 0x1019F), (0x101A1, 0x101CF), (0x101FE, 0x1027F),
  (0x1029D, 0x1029F), (0x102D1, 0x102DF), (0x102FC, 0x102FF), (0x10324, 0x1032C),
  (0x1034B, 0x1034F), (0x1037B, 0x1037F), (0x1039E, 0x1039E), (0x103C4, 0x103C7),
  (0x103D6, 0x103FF), (0x1049E, 0x1049F), (0x104AA, 0x104AF), (0x104D4, 0x104D7),
  (0x104FC, 0x104FF), (0x10528, 0x1052F), (0x10564, 0x1056E), (0x1057B, 0x1057B),
  (0x1058B, 0x1058B), (0x10593, 0x10593), (0x10596, 0x10596), (0x105A2, 0x105A2),
  (0x105B2, 0x105B2), (0x105BA, 0x105BA), (0x105BD, 0x105FF), (0x10737, 0x1073F),
  (0x10756, 0x1075F), (0x10768, 0x1077F), (0x10786, 0x10786), (0x107B1, 0x107B1),
  (0x107BB, 0x107FF), (0x10806, 0x10807), (0x10809, 0x10809), (0x10836, 0x10836),
  (0x10839, 0x1083B), (0x1083D, 0x1083E), (0x10856, 0x10856), (0x1089F, 0x108A6),
  (0x108B0, 0x108DF), (0x108F3, 0x108F3), (0x108F6, 0x108FA), (0x1091C, 0x1091E),
  (0x1093A, 0x1093E), (0x10940, 0x1097F), (0x109B8, 0x109BB), (0x109D0, 0x109D1),
  (0x10A04, 0x10A04), (0x10A07, 0x10A0B), (0x10A14, 0x10A14), (0x10A18, 0x10A18),
  (0x10A36, 0x10A37), (0x10A3B, 0x10A3E), (0x10A49, 0x10A4F), (0x10A59, 0x10A5F),
  (0x10AA0, 0x10ABF), (0x10AE7, 0x10AEA), (0x10AF7, 0x10AFF), (0x10B36, 0x10B38),
  (0x10B56, 0x10B57), (0x10B73, 0x10B77), (0x10B92, 0x10B98), (0x10B9D, 0x10BA8),
  (0x10BB0, 0x10BFF), (0x10C49, 0x10C7F), (0x10CB3, 0x10CBF), (0x10CF3, 0x10CF9),
  (0x10D28, 0x10D2F), (0x10D3A, 0x10E5F), (0x10E7F, 0x10E7F), (0x10EAA, 0x10EAA),
  (0x10EAE, 0x10EAF), (0x10EB2, 0x10EFF), (0x10F28, 0x10F2F), (0x10F5A, 0x10F6F),
  (0x10F8A, 0x10FAF), (0x10FCC, 0x10FDF), (0x10FF7, 0x10FFF), (0x1104E, 0x11051),
  (0x11076, 0x1107E), (0x110C3, 0x110CC), (0x110CE, 0x110CF), (0x110E9, 0x110EF),
  (0x110FA, 0x110FF), (0x11135, 0x11135), (0x11148, 0x1114F), (0x11177, 0x1117F),
  (0x111E0, 0x111E0), (0x111F5, 0x111FF), (0x11212, 0x11212), (0x1123F, 0x1127F),
  (0x11287, 0x11287), (0x11289, 0x11289), (0x1128E, 0x1128E), (0x1129E, 0x1129E),
  (0x112AA, 0x112AF), (0x112EB, 0x112EF), (0x112FA, 0x112FF), (0x11304, 0x11304),
  (0x1130D, 0x1130E), (0x11311, 0x11312), (0x11329, 0x11329), (0x11331, 0x11331),
  (0x11334, 0x11334), (0x1133A, 0x1133A), (0x11345, 0x11346), (0x11349, 0x1134A),
  (0x1134E, 0x1134F), (0x11351, 0x11356), (0x11358, 0x1135C), (0x11364, 0x11365),
  (0x1136D, 0x1136F), (0x11375, 0x113FF), (0x1145C, 0x1145C), (0x11462, 0x1147F),
  (0x114C8, 0x114CF), (0x114DA, 0x1157F), (0x115B6, 0x115B7), (0x115DE, 0x115FF),
  (0x11645, 0x1164F), (0x1165A, 0x1165F), (0x1166D, 0x1167F), (0x116BA, 0x116BF),
  (0x116CA, 0x116FF), (0x1171B, 0x1171C), (0x1172C, 0x1172F), (0x11747, 0x117FF),
  (0x1183C, 0x1189F), (0x118F3, 0x118FE), (0x11907, 0x11908), (0x1190A, 0x1190B),
  (0x11914, 0x11914), (0x11917, 0x11917), (0x11936, 0x11936), (0x11939, 0x1193A),
  (0x11947, 0x1194F), (0x1195A, 0x1199F), (0x119A8, 0x119A9), (0x119D8, 0x119D9),
  (0x119E5, 0x119FF), (0x11A48, 0x11A4F), (0x11AA3, 0x11AAF), (0x11AF9, 0x11BFF),
  (0x11C09, 0x11C09), (0x11C37, 0x11C37), (0x11C46, 0x11C4F), (0x11C6D, 0x11C6F),
  (0x11C90, 0x11C91), (0x11CA8, 0x11CA8), (0x11CB7, 0x11CFF), (0x11D07, 0x11D07),
  (0x11D0A, 0x11D0A), (0x11D37, 0x11D39), (0x11D3B, 0x11D3B), (0x11D3E, 0x11D3E),
  (0x11D48, 0x11D4F), (0x11D5A, 0x11D5F), (0x11D66, 0x11D66), (0x11D69, 0x11D69),
  (0x11D8F, 0x11D8F), (0x11D92, 0x11D92), (0x11D99, 0x11D9F), (0x11DAA, 0x11EDF),
  (0x11EF9, 0x11FAF), (0x11FB1, 0x11FBF), (0x11FF2, 0x11FFE), (0x1239A, 0x123FF),
  (0x1246F, 0x1246F), (0x12475, 0x1247F), (0x12544, 0x12F8F), (0x12FF3, 0x12FFF),
  (0x1342F, 0x1342F), (0x13439, 0x143FF), (0x14647, 0x167FF), (0x16A39, 0x16A3F),
  (0x16A5F, 0x16A5F), (0x16A6A, 0x16A6D), (0x16ABF, 0x16ABF), (0x16ACA, 0x16ACF),
  (0x16AEE, 0x16AEF), (0x16AF6, 0x16AFF), (0x16B46, 0x16B4F), (0x16B5A, 0x16B5A),
  (0x16B62, 0x16B62), (0x16B78, 0x16B7C), (0x16B90, 0x16E3F), (0x16E9B, 0x16EFF),
  (0x16F4B, 0x16F4E), (0x16F88, 0x16F8E), (0x16FA0, 0x1BBFF), (0x1BC6B, 0x1BC6F),
  (0x1BC7D, 0x1BC7F), (0x1BC89, 0x1BC8F), (0x1BC9A, 0x1BC9B), (0x1BCA4, 0x1CEFF),
  (0x1CF2E, 0x1CF2F), (0x1CF47, 0x1CF4F), (0x1CFC4, 0x1CFFF), (0x1D0F6, 0x1D0FF),
  (0x1D127, 0x1D128), (0x1D1EB, 0x1D1FF), (0x1D246, 0x1D2DF), (0x1D2F4, 0x1D2FF),
  (0x1D357, 0x1D35F), (0x1D379, 0x1D3FF), (0x1D455, 0x1D455), (0x1D49D, 0x1D49D),
  (0x1D4A0, 0x1D4A1), (0x1D4A3, 0x1D4A4), (0x1D4A7, 0x1D4A8), (0x1D4AD, 0x1D4AD),
  (0x1D4BA, 0x1D4BA), (0x1D4BC, 0x1D4BC), (0x1D4C4, 0x1D4C4), (0x1D506, 0x1D506),
  (0x1D50B, 0x1D50C), (0x1D515, 0x1D515), (0x1D51D, 0x1D51D), (0x1D53A, 0x1D53A),
  (0x1D53F, 0x1D53F), (0x1D545, 0x1D545), (0x1D547, 0x1D549), (0x1D551, 0x1D551),
  (0x1D6A6, 0x1D6A7), (0x1D7CC, 0x1D7CD), (0x1DA8C, 0x1DA9A), (0x1DAA0, 0x1DAA0),
  (0x1DAB0, 0x1DEFF), (0x1DF1F, 0x1DFFF), (0x1E007, 0x1E007), (0x1E019, 0x1E01A),
  (0x1E022, 0x1E022), (0x1E025, 0x1E025), (0x1E02B, 0x1E0FF), (0x1E12D, 0x1E12F),
  (0x1E13E, 0x1E13F), (0x1E14A, 0x1E14D), (0x1E150, 0x1E28F), (0x1E2AF, 0x1E2BF),
  (0x1E2FA, 0x1E2FE), (0x1E300, 0x1E7DF), (0x1E7E7, 0x1E7E7), (0x1E7EC, 0x1E7EC),
  (0x1E7EF, 0x1E7EF), (0x1E7FF, 0x1E7FF), (0x1E8C5, 0x1E8C6), (0x1E8D7, 0x1E8FF),
  (0x1E94C, 0x1E94F), (0x1E95A, 0x1E95D), (0x1E960, 0x1EC70), (0x1ECB5, 0x1ED00),
  (0x1ED3E, 0x1EDFF), (0x1EE04, 0x1EE04), (0x1EE20, 0x1EE20), (0x1EE23, 0x1EE23),
  (0x1EE25, 0x1EE26), (0x1EE28, 0x1EE28), (0x1EE33, 0x1EE33), (0x1EE38, 0x1EE38),
  (0x1EE3A, 0x1EE3A), (0x1EE3C, 0x1EE41), (0x1EE43, 0x1EE46), (0x1EE48, 0x1EE48),
  (0x1EE4A, 0x1EE4A), (0x1EE4C, 0x1EE4C), (0x1EE50, 0x1EE50), (0x1EE53, 0x1EE53),
  (0x1EE55, 0x1EE56), (0x1EE58, 0x1EE58), (0x1EE5A, 0x1EE5A), (0x1EE5C, 0x1EE5C),
  (0x1EE5E, 0x1EE5E), (0x1EE60, 0x1EE60), (0x1EE63, 0x1EE63), (0x1EE65, 0x1EE66),
  (0x1EE6B, 0x1EE6B), (0x1EE73, 0x1EE73), (0x1EE78, 0x1EE78), (0x1EE7D, 0x1EE7D),
  (0x1EE7F, 0x1EE7F), (0x1EE8A, 0x1EE8A), (0x1EE9C, 0x1EEA0), (0x1EEA4, 0x1EEA4),
  (0x1EEAA, 0x1EEAA), (0x1EEBC, 0x1EEEF), (0x1EEF2, 0x1EFFF), (0x1F004, 0x1F004),
  (0x1F02C, 0x1F02F), (0x1F094, 0x1F09F), (0x1F0AF, 0x1F0B0), (0x1F0C0, 0x1F0C0),
  (0x1F0CF, 0x1F0D0), (0x1F0F6, 0x1F0FF), (0x1F18E, 0x1F18E), (0x1F191, 0x1F19A),
  (0x1F1AE, 0x1F1E5), (0x1F200, 0x1F320), (0x1F32D, 0x1F335), (0x1F337, 0x1F37C),
  (0x1F37E, 0x1F393), (0x1F3A0, 0x1F3CA), (0x1F3CF, 0x1F3D3), (0x1F3E0, 0x1F3F0),
  (0x1F3F4, 0x1F3F4), (0x1F3F8, 0x1F43E), (0x1F440, 0x1F440), (0x1F442, 0x1F4FC),
  (0x1F4FF, 0x1F53D), (0x1F54B, 0x1F54E), (0x1F550, 0x1F567), (0x1F57A, 0x1F57A),
  (0x1F595, 0x1F596), (0x1F5A4, 0x1F5A4), (0x1F5FB, 0x1F64F), (0x1F680, 0x1F6C5),
  (0x1F6CC, 0x1F6CC), (0x1F6D0, 0x1F6D2), (0x1F6D5, 0x1F6DF), (0x1F6EB, 0x1F6EF),
  (0x1F6F4, 0x1F6FF), (0x1F774, 0x1F77F), (0x1F7D9, 0x1F7FF), (0x1F80C, 0x1F80F),
  (0x1F848, 0x1F84F), (0x1F85A, 0x1F85F), (0x1F888, 0x1F88F), (0x1F8AE, 0x1F8AF),
  (0x1F8B2, 0x1F8FF), (0x1F90C, 0x1F93A), (0x1F93C, 0x1F945), (0x1F947, 0x1F9FF),
  (0x1FA54, 0x1FA5F), (0x1FA6E, 0x1FAFF), (0x1FB93, 0x1FB93), (0x1FBCB, 0x1FBEF),
  (0x1FBFA, 0xE0000), (0xE0002, 0xE001F), (0xE0080, 0xE00FF), (0xE01F0, 0xEFFFF),
  (0xFFFFE, 0xFFFFF), (0x10FFFE, 0x10FFFF)]

/-- Truth table of `unicodedata.east_asian_width(ch) in ('W', 'F')`. -/
def eastAsianWide (cp : Nat) : Bool :=
  eawWideRanges.any (fun r => r.1 ≤ cp && cp ≤ r.2)

/-- Maximal intervals of code points whose `unicodedata.category` is
`So` (symbol, other), from the Unicode 14.0.0 character tables shipped
with CPython's `unicodedata` module. -/
def categorySoRanges : List (Nat × Nat) := [
  (0xA6, 0xA6), (0xA9, 0xA9), (0xAE, 0xAE), (0xB0, 0xB0),
  (0x482, 0x482), (0x58D, 0x58E), (0x60E, 0x60F), (0x6DE, 0x6DE),
  (0x6E9, 0x6E9), (0x6FD, 0x6FE), (0x7F6, 0x7F6), (0x9FA, 0x9FA),
  (0xB70, 0xB70), (0xBF3, 0xBF8), (0xBFA, 0xBFA), (0xC7F, 0xC7F),
  (0xD4F, 0xD4F), (0xD79, 0xD79), (0xF01, 0xF03), (0xF13, 0xF13),
  (0xF15, 0xF17), (0xF1A, 0xF1F), (0xF34, 0xF34), (0xF36, 0xF36),
  (0xF38, 0xF38), (0xFBE, 0xFC5), (0xFC7, 0xFCC), (0xFCE, 0xFCF),
  (0xFD5, 0xFD8), (0x109E, 0x109F), (0x1390, 0x1399), (0x166D, 0x166D),
  (0x1940, 0x1940), (0x19DE, 0x19FF), (0x1B61, 0x1B6A), (0x1B74, 0x1B7C),
  (0x2100, 0x2101), (0x2103, 0x2106), (0x2108, 0x2109), (0x2114, 0x2114),
  (0x2116, 0x2117), (0x211E, 0x2123), (0x2125, 0x2125), (0x2127, 0x2127),
  (0x2129, 0x2129), (0x212E, 0x212E), (0x213A, 0x213B), (0x214A, 0x214A),
  (0x214C, 0x214D), (0x214F, 0x214F), (0x218A, 0x218B), (0x2195, 0x2199),
  (0x219C, 0x219F), (0x21A1, 0x21A2), (0x21A4, 0x21A5), (0x21A7, 0x21AD),
  (0x21AF, 0x21CD), (0x21D0, 0x21D1), (0x21D3, 0x21D3), (0x21D5, 0x21F3),
  (0x2300, 0x2307), (0x230C, 0x231F), (0x2322, 0x2328), (0x232B, 0x237B),
  (0x237D, 0x239A), (0x23B4, 0x23DB), (0x23E2, 0x2426), (0x2440, 0x244A),
  (0x249C, 0x24E9), (0x2500, 0x25B6), (0x25B8, 0x25C0), (0x25C2, 0x25F7),
  (0x2600, 0x266E), (0x2670, 0x2767), (0x2794, 0x27BF), (0x2800, 0x28FF),
  (0x2B00, 0x2B2F), (0x2B45, 0x2B46), (0x2B4D, 0x2B73), (0x2B76, 0x2B95),
  (0x2B97, 0x2BFF), (0x2CE5, 0x2CEA), (0x2E50, 0x2E51), (0x2E80, 0x2E99),
  (0x2E9B, 0x2EF3), (0x2F00, 0x2FD5), (0x2FF0, 0x2FFB), (0x3004, 0x3004),
  (0x3012, 0x3013), (0x3020, 0x3020), (0x3036, 0x3037), (0x303E, 0x303F),
  (0x3190, 0x3191), (0x3196, 0x319F), (0x31C0, 0x31E3), (0x3200, 0x321E),
  (0x322A, 0x3247), (0x3250, 0x3250), (0x3260, 0x327F), (0x328A, 0x32B0),
  (0x32C0, 0x33FF), (0x4DC0, 0x4DFF), (0xA490, 0xA4C6), (0xA828, 0xA82B),
  (0xA836, 0xA837), (0xA839, 0xA839), (0xAA77, 0xAA79), (0xFD40, 0xFD4F),
  (0xFDCF, 0xFDCF), (0xFDFD, 0xFDFF), (0xFFE4, 0xFFE4), (0xFFE8, 0xFFE8),
  (0xFFED, 0xFFEE), (0xFFFC, 0xFFFD), (0x10137, 0x1013F), (0x10179, 0x10189),
  (0x1018C, 0x1018E), (0x10190, 0x1019C), (0x101A0, 0x101A0), (0x101D0, 0x101FC),
  (0x10877, 0x10878), (0x10AC8, 0x10AC8), (0x1173F, 0x1173F), (0x11FD5, 0x11FDC),
  (0x11FE1, 0x11FF1), (0x16B3C, 0x16B3F), (0x16B45, 0x16B45), (0x1BC9C, 0x1BC9C),
  (0x1CF50, 0x1CFC3), (0x1D000, 0x1D0F5), (0x1D100, 0x1D126), (0x1D129, 0x1D164),
  (0x1D16A, 0x1D16C), (0x1D183, 0x1D184), (0x1D18C, 0x1D1A9), (0x1D1AE, 0x1D1EA),
  (0x1D200, 0x1D241), (0x1D245, 0x1D245), (0x1D300, 0x1D356), (0x1D800, 0x1D9FF),
  (0x1DA37, 0x1DA3A), (0x1DA6D, 0x1DA74), (0x1DA76, 0x1DA83), (0x1DA85, 0x1DA86),
  (0x1E14F, 0x1E14F), (0x1ECAC, 0x1ECAC), (0x1ED2E, 0x1ED2E), (0x1F000, 0x1F02B),
  (0x1F030, 0x1F093), (0x1F0A0, 0x1F0AE), (0x1F0B1, 0x1F0BF), (0x1F0C1, 0x1F0CF),
  (0x1F0D1, 0x1F0F5), (0x1F10D, 0x1F1AD), (0x1F1E6, 0x1F202), (0x1F210, 0x1F23B),
  (0x1F240, 0x1F248), (0x1F250, 0x1F251), (0x1F260, 0x1F265), (0x1F300, 0x1F3FA),
  (0x1F400, 0x1F6D7), (0x1F6DD, 0x1F6EC), (0x1F6F0, 0x1F6FC), (0x1F700, 0x1F773),
  (0x1F780, 0x1F7D8), (0x1F7E0, 0x1F7EB), (0x1F7F0, 0x1F7F0), (0x1F800, 0x1F80B),
  (0x1F810, 0x1F847), (0x1F850, 0x1F859), (0x1F860, 0x1F887), (0x1F890, 0x1F8AD),
  (0x1F8B0, 0x1F8B1), (0x1F900, 0x1FA53), (0x1FA60, 0x1FA6D), (0x1FA70, 0x1FA74),
  (0x1FA78, 0x1FA7C), (0x1FA80, 0x1FA86), (0x1FA90, 0x1FAAC), (0x1FAB0, 0x1FABA),
  (0x1FAC0, 0x1FAC5), (0x1FAD0, 0x1FAD9), (0x1FAE0, 0x1FAE7), (0x1FAF0, 0x1FAF6),
  (0x1FB00, 0x1FB92), (0x1FB94, 0x1FBCA)]

/-- Truth table of `unicodedata.category(ch) == 'So'`. -/
def categorySo (cp : Nat) : Bool :=
  categorySoRanges.any (fun r => r.1 ≤ cp && cp ≤ r.2)

/-- Loop body of `visual_width` from `money_flow.py` (lines 626-650): a
single pass over the code points with a running `width` accumulator.
Variation selectors U+FE00..U+FE0F and the zero-width joiner U+200D are
skipped; East Asian Wide/Fullwidth characters add 2; code points above
U+1F000 add 2; So-category symbols above U+2600 add 2; everything else
adds 1. -/
def visualWidthGo : List Nat → Nat → Nat
  | [], width => width
  | cp :: rest, width =>
    if (0xFE00 ≤ cp ∧ cp ≤ 0xFE0F) ∨ cp = 0x200D then
      visualWidthGo rest width
    else if eastAsianWide cp then
      visualWidthGo rest (width + 2)
    else if 0x1F000 < cp then
      visualWidthGo rest (width + 2)
    else if categorySo cp ∧ 0x2600 < cp then
      visualWidthGo rest (width + 2)
    else
      visualWidthGo rest (width + 1)

/-- Python `visual_width(s)`: run the accumulator loop from 0. -/
def visual_width (s : List Nat) : Nat :=
  visualWidthGo s 0

/-- Per-character weight as the spec words it: variation selectors and
zero-width joiners count 0, wide glyphs (East Asian wide/fullwidth,
emoji above U+1F000, other-symbols above U+2600) count 2, every other
character (box drawing, block elements, ordinary text) counts 1. -/
def specCharWidth (cp : Nat) : Nat :=
  if (0xFE00 ≤ cp ∧ cp ≤ 0xFE0F) ∨ cp = 0x200D then 0
  else if eastAsianWide cp ∨ 0x1F000 < cp ∨ (categorySo cp ∧ 0x2600 < cp) then 2
  else 1

/-- Dashboard section of the output: the lines before the first blank
line, i.e. the prefix collected by the loop in `validate_gist_output`
(lines 659-665) that breaks at the first blank line. -/
def dashboardOf (output : List Nat) : List (List Nat) :=
  (splitNL output).takeWhile (fun l => !(isBlank l))

/-- Errors appended by `validate_gist_output`.  Each constructor stands
for one of the four f-string error messages, carrying exactly the data
interpolated into that message. -/
inductive GistError where
  /-- `"Expected 5 dashboard lines, got {n}"` -/
  | lineCount (got : Nat)
  /-- `"Line {i+1} is {w} chars wide (max 43): '{line}'"` -/
  | lineWidth (lineNo w : Nat) (line : List Nat)
  /-- `"Line {idx+1} must start with one of {emojis}"` -/
  | marker (lineNo : Nat) (emojis : List (List Nat))
  /-- `"Missing blank line between dashboard and explanations"` -/
  | missingBlank
deriving DecidableEq, Repr

/-- Required leading markers per dashboard line, from the `expected`
dict (line 676): line 1 one of the regime dots U+1F7E2/U+1F7E1/U+1F534,
line 2 the money emoji U+1F4B8, line 3 the clipboard U+1F4CB, line 4 the
scale U+2696, line 5 the bulb U+1F4A1. -/
def expectedMarkers (idx : Nat) : List (List Nat) :=
  if idx = 0 then [[0x1F7E2], [0x1F7E1], [0x1F534]]
  else if idx = 1 then [[0x1F4B8]]
  else if idx = 2 then [[0x1F4CB]]
  else if idx = 3 then [[0x2696]]
  else [[0x1F4A1]]

/-- Width errors (lines 670-673): for each dashboard line, if its visual
width exceeds 43, report the 1-based line number, the width and the
line. -/
def widthErrorList (dashboard : List (List Nat)) : List GistError :=
  dashboard.enum.filterMap fun p =>
    if 43 < visual_width p.2 then
      some (GistError.lineWidth (p.1 + 1) (visual_width p.2) p.2)
    else none

/-- Marker errors (lines 675-680): for each index 0..4 that is in range
of the dashboard, if the line does not start with any of the expected
markers (`str.startswith`), report it. -/
def markerErrors (dashboard : List (List Nat)) : List GistError :=
  (List.range 5).filterMap fun idx =>
    match dashboard[idx]? with
    | none => none
    | some line =>
      if (expectedMarkers idx).any (fun e => e.isPrefixOf line) then none
      else some (GistError.marker (idx + 1) (expectedMarkers idx))

/-- Python `validate_gist_output(output)` (lines 653-685): split into
lines, take the dashboard prefix before the first blank line, then
append in order the line-count error, the width errors, the marker
errors, and the missing-blank-line error. -/
def validate_gist_output (output : List Nat) : List GistError :=
  (if (dashboardOf output).length = 5 then []
   else [GistError.lineCount (dashboardOf output).length])
  ++ widthErrorList (dashboardOf output)
  ++ markerErrors (dashboardOf output)
  ++ (if (splitNL output).any isBlank then [] else [GistError.missingBlank])

/-! The refinement loop `agent_refine` (lines 688-770).  The network is
abstracted into a response oracle: `resp attempt` is the model's reply
on the given attempt after markdown-fence stripping (lines 742-748), and
`none` models an exception raised during the API call, on which the
Python loop `break`s and the function returns `None`. -/

/-- One traversal of the `for attempt in range(5)` loop starting at
`attempt` with `fuel` iterations left: get the model output, return it
if the validator accepts it, otherwise continue with the next attempt;
stop with `none` on an exception or when the budget is exhausted. -/
def refineFrom (resp : Nat → Option (List Nat)) : Nat → Nat → Option (List Nat)
  | _, 0 => none
  | attempt, fuel + 1 =>
    match resp attempt with
    | none => none
    | some out =>
      if validate_gist_output out = [] then some out
      else refineFrom resp (attempt + 1) fuel

/-- Python `agent_refine` run with its budget of 5 attempts. -/
def agent_refine (resp : Nat → Option (List Nat)) : Option (List Nat) :=
  refineFrom resp 0 5

/-- Python `"\n".join(lines)`. -/
def joinNL : List (List Nat) → List Nat
  | [] => []
  | [l] => l
  | l :: ls => l ++ 10 :: joinNL ls

/-- Deterministic (non-LLM) rendering assembled in `main` (line 828):
`"\n".join(lines) + "\n\n" + "\n".join(explains)`. -/
def deterministicContent (lines explains : List (List Nat)) : List Nat :=
  joinNL lines ++ [10, 10] ++ joinNL explains

/-- Content selection in `main` (lines 821-829): the agent output when
the refinement loop returned one, else the deterministic rendering.  The
boolean is the `source` tag (`true` for `"agent"`). -/
def mainContent (lines explains : List (List Nat))
    (resp : Nat → Option (List Nat)) : List Nat × Bool :=
  match agent_refine resp with
  | some out => (out, true)
  | none => (deterministicContent lines explains, false)

/-! Graceful-degradation model of `main`'s builder loop (lines 796-819)
and the per-source catch blocks cited by the spec.  A builder outcome is
`Except msg (line, explain)`: `Except.error msg` models the builder
raising, with `msg` the stringified exception. -/

/-- Placeholder line `"⚠ error"` appended when a builder raises
(line 809). -/
def warnErrorLine : List Nat := [0x26A0, 32, 101, 114, 114, 111, 114]

/-- Placeholder line `"💡 insufficient data"` appended when
`build_line5` raises (line 818). -/
def insufficientDataLine : List Nat :=
  [0x1F4A1, 32, 105, 110, 115, 117, 102, 102, 105, 99, 105, 101, 110, 116, 32,
   100, 97, 116, 97]

/-- Line `"$▶ flow unavail"` returned by `build_line2` when the SPY
fetch raises (line 239). -/
def flowUnavailLine : List Nat :=
  [36, 0x25B6, 32, 102, 108, 111, 119, 32, 117, 110, 97, 118, 97, 105, 108]

/-- Explanation `"💸 market data unavailable"` returned with it. -/
def marketUnavailableExplain : List Nat :=
  [0x1F4B8, 32, 109, 97, 114, 107, 101, 116, 32, 100, 97, 116, 97, 32,
   117, 110, 97, 118, 97, 105, 108, 97, 98, 108, 101]

/-- Word `"quiet"` substituted when no insider filings were found
(line 313). -/
def quietWord : List Nat := [113, 117, 105, 101, 116]

/-- Column text `"polymarket unavail"` (line 461). -/
def polymarketUnavailWord : List Nat :=
  [112, 111, 108, 121, 109, 97, 114, 107, 101, 116, 32, 117, 110, 97, 118,
   97, 105, 108]

/-- Python `s.ljust(w)` as produced by the `{x:<w}` format spec: pad on
the right with spaces up to width `w` code points. -/
def ljust (s : List Nat) (w : Nat) : List Nat :=
  s ++ List.replicate (w - s.length) 32

/-- Python `fmt3(emoji, c1, c2, c3)` (lines 87-90): emoji, space, `c1`
left-justified to 14, `"│ "`, `c2` left-justified to 13, `"│ "`, `c3`. -/
def fmt3 (emoji c1 c2 c3 : List Nat) : List Nat :=
  emoji ++ [32] ++ ljust c1 14 ++ [0x2502, 32] ++ ljust c2 13 ++ [0x2502, 32] ++ c3

/-- Python `fmt2(emoji, c1, c2)` (lines 92-93): `c1` left-justified to
`14 + 2 + 13 = 29`. -/
def fmt2 (emoji c1 c2 : List Nat) : List Nat :=
  emoji ++ [32] ++ ljust c1 29 ++ [0x2502, 32] ++ c2

/-- Guard at the top of `build_line2` (lines 234-239): if the SPY fetch
raises, return the placeholder pair at once; otherwise continue with the
rest of the builder on the fetched data. -/
def build_line2_model {A : Type} (spyFetch : Except Unit A)
    (rest : A → List Nat × List Nat) : List Nat × List Nat :=
  match spyFetch with
  | .error _ => (flowUnavailLine, marketUnavailableExplain)
  | .ok a => rest a

/-- Insider column of `build_line3` (line 313): join the per-ticker
counts with spaces, or `"quiet"` when none were found. -/
def insider_str (parts : List (List Nat)) : List Nat :=
  if parts = [] then quietWord else List.intercalate [32] parts

/-- Line assembly of `build_line4` (lines 456-461) over the `short`
labels of the markets found: pad with `"—"` up to 3 columns, or the
`"polymarket unavail"` placeholder line when no market survived the
filters. -/
def build_line4_line (shorts : List (List Nat)) : List Nat :=
  if shorts = [] then fmt2 [0x2696] polymarketUnavailWord [0x2014]
  else
    let p := shorts ++ List.replicate (3 - shorts.length) [0x2014]
    fmt3 [0x2696] (p.getD 0 []) (p.getD 1 []) (p.getD 2 [])

/-- Dashboard line produced for one of the four builders in `main`'s
loop (lines 801-810): the builder's line on success, `"⚠ error"` when it
raises. -/
def builderResultLine (r : Except (List Nat) (List Nat × List Nat)) : List Nat :=
  match r with
  | .ok p => p.1
  | .error _ => warnErrorLine

/-- Dashboard line for `build_line5` (lines 812-819): the signal line on
success, `"💡 insufficient data"` when it raises. -/
def line5ResultLine (r : Except (List Nat) (List Nat × List Nat)) : List Nat :=
  match r with
  | .ok p => p.1
  | .error _ => insufficientDataLine

/-- Loop body of `main`'s builder loop (lines 802-810): append the line
and explanation on success, the placeholders on an exception (`msg` is
the `"⚠ {builder.__name__}: {e}"` text). -/
def builderStep (acc : List (List Nat) × List (List Nat))
    (r : Except (List Nat) (List Nat × List Nat)) :
    List (List Nat) × List (List Nat) :=
  match r with
  | .ok p => (acc.1 ++ [p.1], acc.2 ++ [p.2])
  | .error msg => (acc.1 ++ [warnErrorLine], acc.2 ++ [[0x26A0, 32] ++ msg])

/-- Dashboard lines accumulated by `main` (lines 796-819): the builder
loop over the four line builders followed by the `build_line5` step. -/
def mainLines (rs : List (Except (List Nat) (List Nat × List Nat)))
    (r5 : Except (List Nat) (List Nat × List Nat)) : List (List Nat) :=
  (rs.foldl builderStep ([], [])).1 ++ [line5ResultLine r5]

/-! Concrete inputs used by witnesses and boundary checks. -/

/-- Dashboard line of visual width 43: one wide emoji (U+1F7E2, width 2)
followed by 41 ordinary letters. -/
def line43 : List Nat := 0x1F7E2 :: List.replicate 41 97

/-- The same line with one more ordinary letter: visual width 44. -/
def line44 : List Nat := 0x1F7E2 :: List.replicate 42 97

/-- Output whose first dashboard line is `l1` and whose remaining four
lines are the bare required markers, followed by a blank line and one
explanation character. -/
def dashOut (l1 : List Nat) : List Nat :=
  l1 ++ [10, 0x1F4B8, 10, 0x1F4CB, 10, 0x2696, 10, 0x1F4A1, 10, 10, 120]

/-- Valid five-line output used by witnesses. -/
def okOut : List Nat := dashOut [0x1F7E2]

/-- Output whose second line carries the clipboard marker instead of the
money emoji. -/
def markerOut : List Nat :=
  [0x1F7E2, 32, 97, 10, 0x1F4CB, 32, 98, 10, 0x1F4CB, 32, 99, 10,
   0x2696, 32, 100, 10, 0x1F4A1, 32, 101, 10, 10, 120]

/-- Single non-blank line, no blank separator anywhere. -/
def noBlankOut : List Nat := [97]

end MoneyFlow

namespace AgentGist

open MoneyFlow

/-- Python `raw.strip()` (default whitespace strip on both ends). -/
def stripWS (s : List Nat) : List Nat :=
  ((s.dropWhile isPySpace).reverse.dropWhile isPySpace).reverse

/-- Lines kept from the model reply in `main` of `agent_gist.py`
(line 258): `[l for l in raw.strip().split("\n") if l.strip()][:5]`. -/
def keptLines (raw : List Nat) : List (List Nat) :=
  (((splitNL (stripWS raw)).filter (fun l => !(isBlank l))).take 5)

/-- Line enforcement in `main` (lines 258-261): keep at most 5 non-blank
lines, truncate each to 41 code points (`l[:41]`), pad with the filler
line of 20 middle dots (`"·" * 20`) up to 5 lines. -/
def enforceLines (raw : List Nat) : List (List Nat) :=
  let kept := (keptLines raw).map (fun l => l.take 41)
  kept ++ List.replicate (5 - kept.length) (List.replicate 20 0xB7)

/-- Raw text processed by `main`: the model reply on success, the
error-fallback text built in the `except` branch (lines 245-255)
otherwise. -/
def modelRaw (mres : Except (List Nat) (List Nat))
    (fallback : List Nat → List Nat) : List Nat :=
  match mres with
  | .ok r => r
  | .error e => fallback e

/-- Effects performed by one run of `main` in `agent_gist.py`, in the
order they occur in the source, plus the process exit code. -/
structure AgentRun where
  exitCode : Nat
  fetchedWeather : Bool
  readMemory : Bool
  calledModel : Bool
  wroteContentGist : Bool
  wroteMemoryGist : Bool
deriving DecidableEq, Repr

/-- Model of `main` (lines 216-307).  Oracles: `refresh` is the outcome
of `refresh_access_token()` (lines 219-225), `modelResult tok` the
outcome of `call_claude` with the refreshed token, `fallback` the error
text of the `except` branch.  When the token refresh raises, `main`
prints and calls `sys.exit(1)` before the weather fetch, the memory
read, the model call and both gist writes; otherwise every later step
runs (each catching its own errors internally) and the enforced 5-line
output is published. -/
def agent_main (refresh : Except Unit (List Nat))
    (modelResult : List Nat → Except (List Nat) (List Nat))
    (fallback : List Nat → List Nat) : AgentRun × Option (List Nat) :=
  match refresh with
  | .error _ => (⟨1, false, false, false, false, false⟩, none)
  | .ok tok =>
    let raw := modelRaw (modelResult tok) fallback
    let output := joinNL (enforceLines raw)
    (⟨0, true, true, true, true, true⟩, some output)

end AgentGist

namespace MoneyFlow

theorem visualWidthGo_eq (s : List Nat) :
    ∀ w, visualWidthGo s w = w + (s.map specCharWidth).sum := by
  induction s with
  | nil => intro w; simp [visualWidthGo]
  | cons cp rest ih =>
    intro w
    by_cases h0 : (0xFE00 ≤ cp ∧ cp ≤ 0xFE0F) ∨ cp = 0x200D
    · simp [visualWidthGo, specCharWidth, h0, ih]
    · by_cases h1 : eastAsianWide cp = true
      · simp [visualWidthGo, specCharWidth, h0, h1, ih]
        omega
      · by_cases h2 : 0x1F000 < cp
        · simp [visualWidthGo, specCharWidth, h0, h1, h2, ih]
          omega
        · by_cases h3 : categorySo cp = true ∧ 0x2600 < cp
          · simp [visualWidthGo, specCharWidth, h0, h1, h2, h3, ih]
            omega
          · simp [visualWidthGo, specCharWidth, h0, h1, h2, h3, ih]
            omega

/-- C2: the visual-width function computes, for every string, the sum
over its characters of the per-character weight in which variation
selectors and zero-width joiners count 0, wide glyphs (East Asian
wide/fullwidth, emoji above U+1F000, other-symbols above U+2600) count
2, and box-drawing, block-element and all other ordinary characters
count 1; consequently it is additive over concatenation. -/
theorem C2_visual_width_charwise (s t : List Nat) :
    visual_width s = (s.map specCharWidth).sum ∧
    visual_width (s ++ t) = visual_width s + visual_width t := by
  refine ⟨by simpa using visualWidthGo_eq s 0, ?_⟩
  have hs := visualWidthGo_eq s 0
  have ht := visualWidthGo_eq t 0
  have hst := visualWidthGo_eq (s ++ t) 0
  simp only [visual_width] at *
  rw [hst, hs, ht, List.map_append, List.sum_append]
  omega

theorem mem_widthErrorList {d : List (List Nat)} {e : GistError} :
    e ∈ widthErrorList d ↔
      ∃ i line, d[i]? = some line ∧ 43 < visual_width line ∧
        e = GistError.lineWidth (i + 1) (visual_width line) line := by
  unfold widthErrorList
  rw [List.mem_filterMap]
  constructor
  · rintro ⟨⟨i, line⟩, hp, hf⟩
    rw [List.mk_mem_enum_iff_getElem?] at hp
    by_cases hw : 43 < visual_width line
    · refine ⟨i, line, hp, hw, ?_⟩
      rw [if_pos hw] at hf
      exact (Option.some.inj hf).symm
    · rw [if_neg hw] at hf
      exact absurd hf (by simp)
  · rintro ⟨i, line, hp, hw, rfl⟩
    exact ⟨(i, line), List.mk_mem_enum_iff_getElem?.mpr hp, if_pos hw⟩

theorem mem_markerErrors {d : List (List Nat)} {e : GistError} :
    e ∈ markerErrors d ↔
      ∃ idx, idx < 5 ∧ ∃ line, d[idx]? = some line ∧
        ((expectedMarkers idx).any (fun m => m.isPrefixOf line)) = false ∧
        e = GistError.marker (idx + 1) (expectedMarkers idx) := by
  unfold markerErrors
  rw [List.mem_filterMap]
  constructor
  · rintro ⟨idx, hidx, hf⟩
    rw [List.mem_range] at hidx
    cases hline : d[idx]? with
    | none => rw [hline] at hf; exact absurd hf (by simp)
    | some line =>
      rw [hline] at hf
      by_cases hany : ((expectedMarkers idx).any (fun m => m.isPrefixOf line)) = true
      · simp [hany] at hf
      · simp only [hany, if_false, Bool.false_eq_true, ite_false,
          Option.some.injEq] at hf
        exact ⟨idx, hidx, line, hline, by simpa using hany, hf.symm⟩
  · rintro ⟨idx, hidx, line, hline, hany, rfl⟩
    refine ⟨idx, List.mem_range.mpr hidx, ?_⟩
    rw [hline]
    simp [hany]

theorem mem_validate {output : List Nat} {e : GistError} :
    e ∈ validate_gist_output output ↔
      (e ∈ (if (dashboardOf output).length = 5 then ([] : List GistError)
            else [GistError.lineCount (dashboardOf output).length]) ∨
       e ∈ widthErrorList (dashboardOf output) ∨
       e ∈ markerErrors (dashboardOf output) ∨
       e ∈ (if (splitNL output).any isBlank then ([] : List GistError)
            else [GistError.missingBlank])) := by
  unfold validate_gist_output
  simp only [List.mem_append]
  tauto

/-- C3: the validator reports a line-count error, and hence a non-empty
error list, exactly when the number of dashboard lines before the first
blank line is not 5. -/
theorem C3_line_count (output : List Nat) :
    ((dashboardOf output).length ≠ 5 →
      GistError.lineCount (dashboardOf output).length ∈ validate_gist_output output ∧
      validate_gist_output output ≠ []) ∧
    ((dashboardOf output).length = 5 →
      ∀ n, GistError.lineCount n ∉ validate_gist_output output) := by
  constructor
  · intro h5
    have hmem : GistError.lineCount (dashboardOf output).length ∈
        validate_gist_output output := by
      rw [mem_validate]
      left
      rw [if_neg h5]
      exact List.mem_singleton.mpr rfl
    exact ⟨hmem, List.ne_nil_of_mem hmem⟩
  · intro h5 n hmem
    rw [mem_validate] at hmem
    rcases hmem with h | h | h | h
    · rw [if_pos h5] at h
      exact absurd h (List.not_mem_nil _)
    · rw [mem_widthErrorList] at h
      obtain ⟨_, _, _, _, h⟩ := h
      exact absurd h (by simp)
    · rw [mem_markerErrors] at h
      obtain ⟨_, _, _, _, _, h⟩ := h
      exact absurd h (by simp)
    · by_cases hb : (splitNL output).any isBlank = true
      · rw [if_pos hb] at h
        exact absurd h (List.not_mem_nil _)
      · rw [if_neg hb] at h
        rw [List.mem_singleton] at h
        exact absurd h (by simp)

theorem C3_line_count_witness :
    (GistError.lineCount 1 ∈ validate_gist_output noBlankOut ∧
      validate_gist_output noBlankOut ≠ []) ∧
    (∀ n, GistError.lineCount n ∉ validate_gist_output okOut) :=
  ⟨(C3_line_count noBlankOut).1 (by decide), (C3_line_count okOut).2 (by decide)⟩

/-- C7: the validator flags the missing blank-line separator exactly
when no line of the input is blank, and never flags it when a blank
line is present. -/
theorem C7_blank_separator (output : List Nat) :
    ((splitNL output).any isBlank = false →
      GistError.missingBlank ∈ validate_gist_output output ∧
      validate_gist_output output ≠ []) ∧
    ((splitNL output).any isBlank = true →
      GistError.missingBlank ∉ validate_gist_output output) := by
  constructor
  · intro hb
    have hmem : GistError.missingBlank ∈ validate_gist_output output := by
      rw [mem_validate]
      right; right; right
      rw [if_neg (by simp [hb])]
      exact List.mem_singleton.mpr rfl
    exact ⟨hmem, List.ne_nil_of_mem hmem⟩
  · intro hb hmem
    rw [mem_validate] at hmem
    rcases hmem with h | h | h | h
    · by_cases h5 : (dashboardOf output).length = 5
      · rw [if_pos h5] at h
        exact absurd h (List.not_mem_nil _)
      · rw [if_neg h5] at h
        rw [List.mem_singleton] at h
        exact absurd h (by simp)
    · rw [mem_widthErrorList] at h
      obtain ⟨_, _, _, _, h⟩ := h
      exact absurd h (by simp)
    · rw [mem_markerErrors] at h
      obtain ⟨_, _, _, _, _, h⟩ := h
      exact absurd h (by simp)
    · rw [if_pos hb] at h
      exact absurd h (List.not_mem_nil _)

theorem C7_blank_separator_witness :
    (GistError.missingBlank ∈ validate_gist_output noBlankOut ∧
      validate_gist_output noBlankOut ≠ []) ∧
    GistError.missingBlank ∉ validate_gist_output okOut :=
  ⟨(C7_blank_separator noBlankOut).1 (by decide),
   (C7_blank_separator okOut).2 (by decide)⟩

end MoneyFlow

namespace MoneyFlow

theorem mem_ite_nil_singleton {c : Prop} [Decidable c] {e x : GistError}
    (h : e ∈ (if c then ([] : List GistError) else [x])) : e = x := by
  by_cases hc : c
  · rw [if_pos hc] at h
    exact absurd h (List.not_mem_nil _)
  · rw [if_neg hc] at h
    exact List.mem_singleton.mp h

/-- C1: for every input, a dashboard line whose visual width exceeds 43
makes the validator return a non-empty error list containing the width
error that names that line (1-based) and its width, while a dashboard
line of visual width at most 43 produces no width error for that line. -/
theorem C1_width_validation (output : List Nat) (i : Nat)
    (h : i < (dashboardOf output).length) :
    (43 < visual_width ((dashboardOf output).get ⟨i, h⟩) →
      GistError.lineWidth (i + 1) (visual_width ((dashboardOf output).get ⟨i, h⟩))
          ((dashboardOf output).get ⟨i, h⟩) ∈ validate_gist_output output ∧
      validate_gist_output output ≠ []) ∧
    (visual_width ((dashboardOf output).get ⟨i, h⟩) ≤ 43 →
      ∀ w line, GistError.lineWidth (i + 1) w line ∉ validate_gist_output output) := by
  constructor
  · intro hw
    have hmem : GistError.lineWidth (i + 1)
        (visual_width ((dashboardOf output).get ⟨i, h⟩))
        ((dashboardOf output).get ⟨i, h⟩) ∈ validate_gist_output output := by
      rw [mem_validate]
      right; left
      rw [mem_widthErrorList]
      refine ⟨i, (dashboardOf output).get ⟨i, h⟩, ?_, hw, rfl⟩
      simp [List.getElem?_eq_getElem h]
    exact ⟨hmem, List.ne_nil_of_mem hmem⟩
  · intro hw w line hmem
    rw [mem_validate] at hmem
    rcases hmem with hm | hm | hm | hm
    · exact absurd (mem_ite_nil_singleton hm) (by simp)
    · rw [mem_widthErrorList] at hm
      obtain ⟨i', line', hget, hw', heq⟩ := hm
      rw [GistError.lineWidth.injEq] at heq
      obtain ⟨hi, -, -⟩ := heq
      have hii : i' = i := by omega
      rw [hii, List.getElem?_eq_getElem h, Option.some.injEq] at hget
      have hgv : (dashboardOf output)[i] = (dashboardOf output).get ⟨i, h⟩ := by
        rw [List.get_eq_getElem]
      rw [← hget, hgv] at hw'
      omega
    · rw [mem_markerErrors] at hm
      obtain ⟨_, _, _, _, _, heq⟩ := hm
      exact absurd heq (by simp)
    · exact absurd (mem_ite_nil_singleton hm) (by simp)

theorem C1_width_validation_witness :
    (GistError.lineWidth 1
        (visual_width ((dashboardOf (dashOut line44)).get ⟨0, by decide⟩))
        ((dashboardOf (dashOut line44)).get ⟨0, by decide⟩) ∈
      validate_gist_output (dashOut line44) ∧
      validate_gist_output (dashOut line44) ≠ []) ∧
    (∀ w line, GistError.lineWidth 1 w line ∉ validate_gist_output (dashOut line43)) :=
  ⟨(C1_width_validation (dashOut line44) 0 (by decide)).1 (by decide),
   (C1_width_validation (dashOut line43) 0 (by decide)).2 (by decide)⟩

/-- C4: for every input and 1-based line index at most 5, the validator
reports the marker error for that line exactly when the dashboard has a
line at that index and the line does not start with any of its required
leading markers. -/
theorem C4_marker_validation (output : List Nat) (idx : Nat) (h5 : idx < 5) :
    GistError.marker (idx + 1) (expectedMarkers idx) ∈ validate_gist_output output ↔
      ∃ line, (dashboardOf output)[idx]? = some line ∧
        ((expectedMarkers idx).any (fun m => m.isPrefixOf line)) = false := by
  constructor
  · intro hmem
    rw [mem_validate] at hmem
    rcases hmem with hm | hm | hm | hm
    · exact absurd (mem_ite_nil_singleton hm) (by simp)
    · rw [mem_widthErrorList] at hm
      obtain ⟨_, _, _, _, heq⟩ := hm
      exact absurd heq (by simp)
    · rw [mem_markerErrors] at hm
      obtain ⟨idx', _, line, hget, hany, heq⟩ := hm
      rw [GistError.marker.injEq] at heq
      obtain ⟨hi, -⟩ := heq
      have hii : idx' = idx := by omega
      subst hii
      exact ⟨line, hget, hany⟩
    · exact absurd (mem_ite_nil_singleton hm) (by simp)
  · rintro ⟨line, hget, hany⟩
    rw [mem_validate]
    right; right; left
    rw [mem_markerErrors]
    exact ⟨idx, h5, line, hget, hany, rfl⟩

theorem C4_marker_validation_witness :
    GistError.marker 2 (expectedMarkers 1) ∈ validate_gist_output markerOut :=
  (C4_marker_validation markerOut 1 (by decide)).mpr
    ⟨[0x1F4CB, 32, 98], by decide, by decide⟩

/-- C6: a dashboard line of one 2-width emoji followed by 41 ordinary
characters has visual width exactly 43 and the validator accepts an
output whose first line it is, while the same line with one more
ordinary character has visual width 44 and draws a width error. -/
theorem C6_width_boundary :
    visual_width line43 = 43 ∧
    validate_gist_output (dashOut line43) = [] ∧
    visual_width line44 = 44 ∧
    validate_gist_output (dashOut line44) = [GistError.lineWidth 1 44 line44] :=
  ⟨by decide, by decide, by decide, by decide⟩

end MoneyFlow

namespace MoneyFlow

theorem refineFrom_some (resp : Nat → Option (List Nat)) :
    ∀ fuel attempt out, refineFrom resp attempt fuel = some out →
      ∃ i, attempt ≤ i ∧ i < attempt + fuel ∧ resp i = some out ∧
        validate_gist_output out = [] := by
  intro fuel
  induction fuel with
  | zero =>
    intro a out h
    exact absurd h (by simp [refineFrom])
  | succ f ih =>
    intro a out h
    cases hr : resp a with
    | none => simp [refineFrom, hr] at h
    | some o =>
      simp only [refineFrom, hr] at h
      by_cases hv : validate_gist_output o = []
      · rw [if_pos hv, Option.some.injEq] at h
        subst h
        exact ⟨a, le_refl a, by omega, hr, hv⟩
      · rw [if_neg hv] at h
        obtain ⟨i, h1, h2, h3, h4⟩ := ih (a + 1) out h
        exact ⟨i, by omega, by omega, h3, h4⟩

theorem refineFrom_none (resp : Nat → Option (List Nat)) :
    ∀ fuel attempt,
      (∀ i out, attempt ≤ i → i < attempt + fuel → resp i = some out →
        validate_gist_output out ≠ []) →
      refineFrom resp attempt fuel = none := by
  intro fuel
  induction fuel with
  | zero => intro a _; simp [refineFrom]
  | succ f ih =>
    intro a hall
    cases hr : resp a with
    | none => simp [refineFrom, hr]
    | some o =>
      have hv : validate_gist_output o ≠ [] := hall a o (le_refl a) (by omega) hr
      simp only [refineFrom, hr]
      rw [if_neg hv]
      exact ih (a + 1) (fun i out h1 h2 h3 => hall i out (by omega) (by omega) h3)

/-- C5: the refinement loop makes at most 5 attempts, any accepted
output is one of the first five oracle replies and passes the validator,
and when no attempt yields validator-accepted output the main routine
selects the deterministic (non-LLM) rendering. -/
theorem C5_refinement_budget (resp : Nat → Option (List Nat))
    (lines explains : List (List Nat)) :
    (∀ out, agent_refine resp = some out →
      ∃ i, i < 5 ∧ resp i = some out ∧ validate_gist_output out = []) ∧
    ((∀ i out, i < 5 → resp i = some out → validate_gist_output out ≠ []) →
      agent_refine resp = none ∧
      mainContent lines explains resp =
        (deterministicContent lines explains, false)) := by
  constructor
  · intro out h
    obtain ⟨i, h1, h2, h3, h4⟩ := refineFrom_some resp 5 0 out h
    exact ⟨i, by omega, h3, h4⟩
  · intro hall
    have hnone : agent_refine resp = none :=
      refineFrom_none resp 5 0 (fun i out h1 h2 h3 => hall i out (by omega) h3)
    exact ⟨hnone, by simp [mainContent, hnone]⟩

theorem C5_refinement_budget_witness :
    agent_refine (fun _ => some noBlankOut) = none ∧
    mainContent [[97]] [[98]] (fun _ => some noBlankOut) =
      (deterministicContent [[97]] [[98]], false) :=
  (C5_refinement_budget (fun _ => some noBlankOut) [[97]] [[98]]).2
    (fun i out _ h => by
      simp only [Option.some.injEq] at h
      rw [← h]
      decide)

/-- C8: for every combination of per-builder outcomes, the main routine
still assembles a full 5-line dashboard, substituting the documented
placeholder for each failed builder; the SPY-fetch guard of
`build_line2` substitutes the flow-unavailable pair, `build_line3`
substitutes `"quiet"` when no insider filing was found, and
`build_line4` renders the polymarket-unavailable line when no market
survived. -/
theorem C8_graceful_degradation
    (r1 r2 r3 r4 r5 : Except (List Nat) (List Nat × List Nat)) :
    mainLines [r1, r2, r3, r4] r5 =
      [builderResultLine r1, builderResultLine r2, builderResultLine r3,
       builderResultLine r4, line5ResultLine r5] ∧
    (mainLines [r1, r2, r3, r4] r5).length = 5 ∧
    (∀ (A : Type) (e : Unit) (rest : A → List Nat × List Nat),
      build_line2_model (Except.error e) rest =
        (flowUnavailLine, marketUnavailableExplain)) ∧
    insider_str [] = quietWord ∧
    build_line4_line [] = fmt2 [0x2696] polymarketUnavailWord [0x2014] := by
  have hmain : mainLines [r1, r2, r3, r4] r5 =
      [builderResultLine r1, builderResultLine r2, builderResultLine r3,
       builderResultLine r4, line5ResultLine r5] := by
    cases r1 <;> cases r2 <;> cases r3 <;> cases r4 <;>
      simp [mainLines, builderStep, builderResultLine]
  exact ⟨hmain, by rw [hmain]; rfl, fun A e rest => rfl, rfl, rfl⟩

end MoneyFlow

namespace AgentGist

open MoneyFlow

/-- C9: when the token refresh raises, the agent script's main exits
with code 1 having performed no other effect; when it succeeds, the run
proceeds through every later step and exits with code 0. -/
theorem C9_token_refresh_fatal (e : Unit)
    (modelResult : List Nat → Except (List Nat) (List Nat))
    (fallback : List Nat → List Nat) :
    agent_main (Except.error e) modelResult fallback =
      (⟨1, false, false, false, false, false⟩, none) ∧
    (∀ tok, (agent_main (Except.ok tok) modelResult fallback).1 =
      ⟨0, true, true, true, true, true⟩) :=
  ⟨rfl, fun _ => rfl⟩

theorem splitNL_no_newline (s : List Nat) : ∀ l ∈ splitNL s, 10 ∉ l := by
  induction s with
  | nil =>
    intro l hl
    rw [splitNL, List.mem_singleton] at hl
    subst hl
    exact List.not_mem_nil _
  | cons cp rest ih =>
    intro l hl
    rw [splitNL] at hl
    split at hl
    · rcases List.mem_cons.mp hl with h | h
      · subst h
        exact List.not_mem_nil _
      · exact ih l h
    · next hc =>
      split at hl
      · rw [List.mem_singleton] at hl
        subst hl
        intro hmem
        rw [List.mem_singleton] at hmem
        exact hc hmem.symm
      · next l0 ls heq =>
        rcases List.mem_cons.mp hl with h | h
        · subst h
          intro hmem
          rcases List.mem_cons.mp hmem with h10 | h10
          · exact hc h10.symm
          · have hl0 : l0 ∈ splitNL rest := by
              rw [heq]
              exact List.mem_cons_self _ _
            exact ih l0 hl0 h10
        · have hls : l ∈ splitNL rest := by
            rw [heq]
            exact List.mem_cons_of_mem _ h
          exact ih l hls

theorem splitNL_append_newline :
    ∀ (x t : List Nat), 10 ∉ x → splitNL (x ++ 10 :: t) = x :: splitNL t := by
  intro x
  induction x with
  | nil =>
    intro t _
    rw [List.nil_append, splitNL, if_pos rfl]
  | cons cp rest ih =>
    intro t h
    have hc : cp ≠ 10 := by
      intro he
      subst he
      exact h (List.mem_cons_self 10 rest)
    have hrest : 10 ∉ rest := fun hm => h (List.mem_cons_of_mem cp hm)
    rw [List.cons_append, splitNL, if_neg hc, ih t hrest]

theorem splitNL_single {l : List Nat} (h : 10 ∉ l) : splitNL l = [l] := by
  induction l with
  | nil => rfl
  | cons cp rest ih =>
    have hc : cp ≠ 10 := by
      intro he
      subst he
      exact h (List.mem_cons_self 10 rest)
    have hrest : 10 ∉ rest := fun hm => h (List.mem_cons_of_mem cp hm)
    rw [splitNL, if_neg hc, ih hrest]

theorem splitNL_joinNL : ∀ ls : List (List Nat), ls ≠ [] →
    (∀ l ∈ ls, 10 ∉ l) → splitNL (joinNL ls) = ls := by
  intro ls
  induction ls with
  | nil => intro h; exact absurd rfl h
  | cons l rest ih =>
    intro _ hall
    cases rest with
    | nil => exact splitNL_single (hall l (List.mem_cons_self _ _))
    | cons l2 rest2 =>
      have h1 : 10 ∉ l := hall l (List.mem_cons_self _ _)
      have h2 : ∀ x ∈ l2 :: rest2, 10 ∉ x :=
        fun x hx => hall x (List.mem_cons_of_mem _ hx)
      show splitNL (l ++ 10 :: joinNL (l2 :: rest2)) = l :: l2 :: rest2
      rw [splitNL_append_newline l (joinNL (l2 :: rest2)) h1,
        ih (by simp) h2]

theorem keptLines_subset {raw l : List Nat}
    (h : l ∈ keptLines raw) : l ∈ splitNL (stripWS raw) :=
  List.mem_of_mem_filter (List.take_subset _ _ h)

theorem keptLines_length_le (raw : List Nat) : (keptLines raw).length ≤ 5 := by
  rw [keptLines, List.length_take]
  exact min_le_left _ _

/-- C10: whatever raw text the model (or the error fallback) produced,
the enforced gist content is exactly 5 lines, each at most 41 code
points, each either the 41-truncation of one of the kept non-blank
lines or the 20-middle-dot filler; splitting the published string
recovers exactly those 5 lines, and the successful run of main
publishes exactly this string. -/
theorem C10_enforced_output (raw : List Nat)
    (mres : Except (List Nat) (List Nat)) (fallback : List Nat → List Nat)
    (tok : List Nat) :
    (enforceLines raw).length = 5 ∧
    (∀ l ∈ enforceLines raw, l.length ≤ 41 ∧
      ((∃ l0 ∈ keptLines raw, l = l0.take 41) ∨ l = List.replicate 20 0xB7)) ∧
    splitNL (joinNL (enforceLines raw)) = enforceLines raw ∧
    (agent_main (Except.ok tok) (fun _ => mres) fallback).2 =
      some (joinNL (enforceLines (modelRaw mres fallback))) := by
  have hlen5 : (enforceLines raw).length = 5 := by
    simp only [enforceLines, List.length_append, List.length_map,
      List.length_replicate]
    have := keptLines_length_le raw
    omega
  refine ⟨hlen5, ?_, ?_, rfl⟩
  · intro l hl
    simp only [enforceLines, List.mem_append] at hl
    rcases hl with hl | hl
    · rw [List.mem_map] at hl
      obtain ⟨l0, hl0, rfl⟩ := hl
      refine ⟨?_, Or.inl ⟨l0, hl0, rfl⟩⟩
      rw [List.length_take]
      exact min_le_left _ _
    · rw [List.mem_replicate] at hl
      obtain ⟨-, rfl⟩ := hl
      exact ⟨by simp, Or.inr rfl⟩
  · have hno : ∀ l ∈ enforceLines raw, 10 ∉ l := by
      intro l hl
      simp only [enforceLines, List.mem_append] at hl
      rcases hl with hl | hl
      · rw [List.mem_map] at hl
        obtain ⟨l0, hl0, rfl⟩ := hl
        intro hmem
        exact splitNL_no_newline (stripWS raw) l0 (keptLines_subset hl0)
          (List.take_subset _ _ hmem)
      · rw [List.mem_replicate] at hl
        obtain ⟨-, rfl⟩ := hl
        intro hmem
        rw [List.mem_replicate] at hmem
        exact absurd hmem.2 (by decide)
    refine splitNL_joinNL _ ?_ hno
    intro he
    rw [he] at hlen5
    exact absurd hlen5 (by decide)

theorem C10_enforced_output_witness :
    (enforceLines [97]).length = 5 ∧
    (([97] : List Nat).length ≤ 41 ∧
      ((∃ l0 ∈ keptLines [97], ([97] : List Nat) = l0.take 41) ∨
        ([97] : List Nat) = List.replicate 20 0xB7)) :=
  ⟨(C10_enforced_output [97] (Except.ok []) id []).1,
   (C10_enforced_output [97] (Except.ok []) id []).2.1 [97] (by decide)⟩

end AgentGist
